import Mathlib

/-! Shallow embedding of the control flow of the pysoem core
(src/pysoem/pysoem.pyx): the CdefMaster and CdefSlave operations around SDO
exchanges, error-queue draining, PDO mapping, process-data access and the
EoE receive hook. Calls into the external SOEM engine (the ecx_ functions)
are modelled by environment records carrying the values those calls return
and the error records they leave on the context error queue. -/

namespace Pysoem

/-- Error-type discriminant of an ec_errort record (the cases the pysoem
code distinguishes: EC_ERR_TYPE_SDO_ERROR, EC_ERR_TYPE_EMERGENCY,
EC_ERR_TYPE_MBX_ERROR, EC_ERR_TYPE_PACKET_ERROR, anything else). -/
inductive ErrType where
  | sdoError
  | emergency
  | mbxError
  | packetError
  | other
deriving DecidableEq

/-- One record popped from the SOEM context error queue (ec_errort), with the
fields the pysoem code reads. -/
structure ErrRec where
  Slave : Nat
  Etype : ErrType
  Index : Nat
  SubIdx : Nat
  AbortCode : Nat
  ErrorCode : Nat
  ErrorReg : Nat
  b1 : Nat
  w1 : Nat
  w2 : Nat
deriving DecidableEq

/-- Items appended by CdefMaster._collect_mailbox_errors to the list carried
by a ConfigMapError (SdoError, MailboxError, PacketError instances, or the
generic Exception built for an unexpected error type). -/
inductive MbxErrItem where
  | SdoErrorItem (slave_pos index subindex abort_code : Nat)
  | MailboxErrorItem (slave_pos error_code : Nat)
  | PacketErrorItem (slave_pos error_code : Nat)
  | UnexpectedErrorItem
deriving DecidableEq

/-- Python exception values raised by the modelled code paths. Constructor
arguments mirror the attributes the pysoem exception classes store.
CallbackException stands for the exception captured from a user config
callback by _xPO2SOconfig / _xPO2SOconfigEx (sys.exc_info kept whole, so the
original type, value and traceback are re-raised); the Nat tags its
identity. -/
inductive Exc where
  | SdoError (slave_pos index subindex abort_code : Nat)
  | Emergency (slave_pos error_code error_reg b1 w1 w2 : Nat)
  | MailboxError (slave_pos error_code : Nat)
  | PacketError (slave_pos error_code : Nat)
  | WkcError (wkc : Option Int)
  | ConfigMapError (error_list : List MbxErrItem)
  | NetworkInterfaceNotOpenError
  | ConnectionError
  | UnboundLocalError
  | MemoryError
  | AssertionError
  | AttributeError
  | OverflowError
  | IndexError
  | UnexpectedError
  | CallbackException (exc_info : Nat)
deriving DecidableEq

/-- CdefSlave._raise_exception: the exception a drained error record raises
(for an Emergency record this is the deprecated direct-raise path, taken when
no emergency callback is registered). -/
def _raise_exception (err : ErrRec) : Exc :=
  match err.Etype with
  | ErrType.sdoError => Exc.SdoError err.Slave err.Index err.SubIdx err.AbortCode
  | ErrType.emergency => Exc.Emergency err.Slave err.ErrorCode err.ErrorReg err.b1 err.w1 err.w2
  | ErrType.mbxError => Exc.MailboxError err.Slave err.ErrorCode
  | ErrType.packetError => Exc.PacketError err.Slave err.ErrorCode
  | ErrType.other => Exc.UnexpectedError

/-- CdefSlave._on_emergency: the Emergency message value passed to every
registered emergency callback for a dispatched record. -/
def _on_emergency (emcy : ErrRec) : Exc :=
  Exc.Emergency emcy.Slave emcy.ErrorCode emcy.ErrorReg emcy.b1 emcy.w1 emcy.w2

/-- A record the sdo_read / sdo_write drain loop forwards to the emergency
callbacks instead of raising: an EC_ERR_TYPE_EMERGENCY record while the
length of self._emcy_callbacks is positive. -/
def dispatchable (nCallbacks : Nat) (err : ErrRec) : Prop :=
  err.Etype = ErrType.emergency ∧ 0 < nCallbacks

instance (n : Nat) (err : ErrRec) : Decidable (dispatchable n err) :=
  inferInstanceAs (Decidable (err.Etype = ErrType.emergency ∧ 0 < n))

/-- Why the while-ecx_poperror loop of sdo_read / sdo_write stopped before
the queue was empty: the sdo_read assert on err.Slave fired, or a
non-dispatchable record was raised via _raise_exception. -/
inductive DrainStop where
  | assertFail (err : ErrRec)
  | raised (err : ErrRec)
deriving DecidableEq

/-- The while-ecx_poperror loop of CdefSlave.sdo_read, including the
assert err.Slave == self._pos that precedes the dispatch-or-raise choice.
Returns the records dispatched to _on_emergency (in order) and the record,
if any, on which the loop stopped. -/
def drainRead (pos nCallbacks : Nat) : List ErrRec → List ErrRec × Option DrainStop
  | [] => ([], none)
  | err :: rest =>
    if err.Slave ≠ pos then
      ([], some (DrainStop.assertFail err))
    else if err.Etype = ErrType.emergency ∧ 0 < nCallbacks then
      (err :: (drainRead pos nCallbacks rest).1, (drainRead pos nCallbacks rest).2)
    else
      ([], some (DrainStop.raised err))

/-- The while-ecx_poperror loop of CdefSlave.sdo_write (same as the sdo_read
loop but without the assert on err.Slave). -/
def drainWrite (nCallbacks : Nat) : List ErrRec → List ErrRec × Option DrainStop
  | [] => ([], none)
  | err :: rest =>
    if err.Etype = ErrType.emergency ∧ 0 < nCallbacks then
      (err :: (drainWrite nCallbacks rest).1, (drainWrite nCallbacks rest).2)
    else
      ([], some (DrainStop.raised err))

/-- Exception raised when a drain loop stops early. -/
def stopExc : DrainStop → Exc
  | DrainStop.assertFail _ => Exc.AssertionError
  | DrainStop.raised err => _raise_exception err

/-- The drain discipline claimed for one SDO exchange: when the loop runs to
completion the whole queue was popped and every record was an Emergency
dispatched to a registered callback; when the loop stopped on a raised
record, that record directly follows the dispatched ones in the queue, is
not dispatchable, and is itself never dispatched; the assert never fires. -/
def drainDiscipline (n : Nat) (q dispatched : List ErrRec) (stop : Option DrainStop) : Prop :=
  (stop = none → dispatched = q ∧ ∀ e ∈ q, dispatchable n e) ∧
  (∀ err, stop = some (DrainStop.raised err) →
    (∃ rest, q = dispatched ++ err :: rest) ∧ ¬ dispatchable n err ∧
    err ∉ dispatched ∧ ∀ e ∈ dispatched, dispatchable n e) ∧
  (∀ err, stop ≠ some (DrainStop.assertFail err))

/-- Fixed scratch-buffer size of sdo_read (STATIC_SDO_READ_BUFFER_SIZE). -/
def STATIC_SDO_READ_BUFFER_SIZE : Nat := 256

/-- Values produced by the external calls inside CdefSlave.sdo_read. -/
structure SdoReadEnv where
  result : Int            -- return value of ecx_SDOread (working counter)
  errQueue : List ErrRec  -- records ecx_poperror yields afterwards, in order
  size_inout : Nat        -- value ecx_SDOread leaves in size_inout
  buf : Nat → Nat         -- contents of the read buffer after the call
  mallocOk : Bool         -- PyMem_Malloc success on the size > 0 path

/-- Observable outcome of one CdefSlave.sdo_read call. dispatched lists the
records handed to _on_emergency; allocated is the size of the heap buffer
PyMem_Malloc returned, if any; freed records whether every allocated heap
buffer was released by PyMem_Free before the call returned or raised. -/
structure SdoReadOut where
  result : Except Exc (List Nat)
  dispatched : List ErrRec
  drainStop : Option DrainStop
  allocated : Option Nat
  freed : Bool

/-- CdefSlave.sdo_read. initialized is the master context_initialized flag,
ctxNull models self._ecx_contextt == NULL, pos is self._pos, nCallbacks the
length of self._emcy_callbacks, size the size argument (0 when omitted).
Note that on the assert-failure path the heap buffer is not freed (the
assert sits before the PyMem_Free of the raise branch). -/
def sdo_read (initialized ctxNull : Bool) (pos nCallbacks size : Nat)
    (env : SdoReadEnv) : SdoReadOut :=
  if ctxNull then ⟨Except.error Exc.UnboundLocalError, [], none, none, true⟩
  else if ¬ initialized then
    ⟨Except.error Exc.NetworkInterfaceNotOpenError, [], none, none, true⟩
  else if size ≠ 0 ∧ env.mallocOk = false then
    ⟨Except.error Exc.MemoryError, [], none, none, true⟩
  else
    match (drainRead pos nCallbacks env.errQueue).2 with
    | some (DrainStop.assertFail err) =>
      ⟨Except.error Exc.AssertionError, (drainRead pos nCallbacks env.errQueue).1,
        some (DrainStop.assertFail err),
        if size = 0 then none else some size, size == 0⟩
    | some (DrainStop.raised err) =>
      ⟨Except.error (_raise_exception err), (drainRead pos nCallbacks env.errQueue).1,
        some (DrainStop.raised err),
        if size = 0 then none else some size, true⟩
    | none =>
      if ¬ env.result > 0 then
        ⟨Except.error (Exc.WkcError (some env.result)),
          (drainRead pos nCallbacks env.errQueue).1, none,
          if size = 0 then none else some size, true⟩
      else
        ⟨Except.ok ((List.range env.size_inout).map env.buf),
          (drainRead pos nCallbacks env.errQueue).1, none,
          if size = 0 then none else some size, true⟩

/-- Values produced by the external calls inside CdefSlave.sdo_write. -/
structure SdoWriteEnv where
  result : Int            -- return value of ecx_SDOwrite (working counter)
  errQueue : List ErrRec  -- records ecx_poperror yields afterwards, in order

/-- Observable outcome of one CdefSlave.sdo_write call. -/
structure SdoWriteOut where
  result : Except Exc Unit
  dispatched : List ErrRec
  drainStop : Option DrainStop

/-- CdefSlave.sdo_write (the written data bytes influence the modelled
control flow only through the external call, captured by env.result). -/
def sdo_write (initialized : Bool) (nCallbacks : Nat) (env : SdoWriteEnv) : SdoWriteOut :=
  if ¬ initialized then ⟨Except.error Exc.NetworkInterfaceNotOpenError, [], none⟩
  else
    match (drainWrite nCallbacks env.errQueue).2 with
    | some stop =>
      ⟨Except.error (stopExc stop), (drainWrite nCallbacks env.errQueue).1, some stop⟩
    | none =>
      if ¬ env.result > 0 then
        ⟨Except.error (Exc.WkcError (some env.result)),
          (drainWrite nCallbacks env.errQueue).1, none⟩
      else
        ⟨Except.ok (), (drainWrite nCallbacks env.errQueue).1, none⟩

/-- Per-slave _CallbackData as left behind by _xPO2SOconfig and
_xPO2SOconfigEx after ecx_config_map_group returned: whether the user config
callback raised, and an identity tag for the captured sys.exc_info triple. -/
structure CallbackData where
  exc_raised : Bool
  exc_info : Nat
deriving DecidableEq

/-- Values produced by the external call inside CdefMaster.config_map /
config_overlap_map: the returned IO map size, the callback-capture state of
every slave (in self.slaves order), and the queued error records. -/
structure ConfigMapEnv where
  retVal : Int
  slaveCds : List CallbackData
  errQueue : List ErrRec

/-- One iteration of the while-ecx_poperror loop in
CdefMaster._collect_mailbox_errors: classification of a popped record. -/
def classifyMbxError (err : ErrRec) : MbxErrItem :=
  match err.Etype with
  | ErrType.sdoError => MbxErrItem.SdoErrorItem err.Slave err.Index err.SubIdx err.AbortCode
  | ErrType.mbxError => MbxErrItem.MailboxErrorItem err.Slave err.ErrorCode
  | ErrType.packetError => MbxErrItem.PacketErrorItem err.Slave err.ErrorCode
  | _ => MbxErrItem.UnexpectedErrorItem

/-- CdefMaster._collect_mailbox_errors: pop every queued record and collect
its classification. -/
def _collect_mailbox_errors : List ErrRec → List MbxErrItem
  | [] => []
  | err :: rest => classifyMbxError err :: _collect_mailbox_errors rest

/-- The for-slave loop of config_map: the first slave whose callback data
has exc_raised set determines the re-raised exception. -/
def firstCallbackExc : List CallbackData → Option Nat
  | [] => none
  | cd :: rest => if cd.exc_raised then some cd.exc_info else firstCallbackExc rest

/-- CdefMaster.config_map: after ecx_config_map_group, re-raise a captured
config-callback exception if one occurred, else raise ConfigMapError when
the drained error list is non-empty, else return the IO map size. -/
def config_map (initialized : Bool) (env : ConfigMapEnv) : Except Exc Int :=
  if ¬ initialized then Except.error Exc.NetworkInterfaceNotOpenError
  else
    match firstCallbackExc env.slaveCds with
    | some info => Except.error (Exc.CallbackException info)
    | none =>
      if 0 < (_collect_mailbox_errors env.errQueue).length then
        Except.error (Exc.ConfigMapError (_collect_mailbox_errors env.errQueue))
      else Except.ok env.retVal

/-- CdefMaster.config_overlap_map: identical flow over
ecx_config_overlap_map_group. -/
def config_overlap_map (initialized : Bool) (env : ConfigMapEnv) : Except Exc Int :=
  if ¬ initialized then Except.error Exc.NetworkInterfaceNotOpenError
  else
    match firstCallbackExc env.slaveCds with
    | some info => Except.error (Exc.CallbackException info)
    | none =>
      if 0 < (_collect_mailbox_errors env.errQueue).length then
        Except.error (Exc.ConfigMapError (_collect_mailbox_errors env.errQueue))
      else Except.ok env.retVal

/-- Group-0 accounting of the master (ec_groupt fields used by pysoem). -/
structure GroupInfo where
  outputsWKC : Nat
  inputsWKC : Nat
deriving DecidableEq

/-- The CdefMaster state the modelled operations touch: the
context_initialized flag, the slaves list (a slave handle is identified by
its 1-based network position), and group 0 of the group table. -/
structure MasterState where
  context_initialized : Bool
  slaves : List Nat
  group0 : GroupInfo
deriving DecidableEq

/-- CdefMaster.open: ecx_init / ecx_init_redundant return 0 when the
interface cannot be bound, in which case ConnectionError is raised and the
flag is left untouched; otherwise context_initialized is set. -/
def master_open (st : MasterState) (ecxInitRet : Int) : MasterState × Option Exc :=
  if ecxInitRet = 0 then (st, some Exc.ConnectionError)
  else (⟨true, st.slaves, st.group0⟩, none)

/-- CdefMaster.close: clears context_initialized, then calls ecx_close. -/
def master_close (st : MasterState) : MasterState :=
  ⟨false, st.slaves, st.group0⟩

/-- CdefMaster.config_dc (guard, then ecx_configdc pass-through). -/
def config_dc (initialized : Bool) (found : Bool) : Except Exc Bool :=
  if ¬ initialized then Except.error Exc.NetworkInterfaceNotOpenError
  else Except.ok found

/-- CdefMaster.read_state (guard, then ecx_readstate pass-through). -/
def read_state (initialized : Bool) (lowest : Int) : Except Exc Int :=
  if ¬ initialized then Except.error Exc.NetworkInterfaceNotOpenError
  else Except.ok lowest

/-- CdefMaster.write_state (guard, then ecx_writestate pass-through). -/
def write_state (initialized : Bool) (wkc : Int) : Except Exc Int :=
  if ¬ initialized then Except.error Exc.NetworkInterfaceNotOpenError
  else Except.ok wkc

/-- CdefMaster.state_check (guard, then ecx_statecheck pass-through). -/
def state_check (initialized : Bool) (foundState : Int) : Except Exc Int :=
  if ¬ initialized then Except.error Exc.NetworkInterfaceNotOpenError
  else Except.ok foundState

/-- CdefMaster.send_processdata (guard, then pass-through). -/
def send_processdata (initialized : Bool) (r : Int) : Except Exc Int :=
  if ¬ initialized then Except.error Exc.NetworkInterfaceNotOpenError
  else Except.ok r

/-- CdefMaster.send_overlap_processdata (guard, then pass-through). -/
def send_overlap_processdata (initialized : Bool) (r : Int) : Except Exc Int :=
  if ¬ initialized then Except.error Exc.NetworkInterfaceNotOpenError
  else Except.ok r

/-- CdefMaster.receive_processdata (guard, then pass-through). -/
def receive_processdata (initialized : Bool) (wkc : Int) : Except Exc Int :=
  if ¬ initialized then Except.error Exc.NetworkInterfaceNotOpenError
  else Except.ok wkc

/-- CdefMaster._get_expected_wkc: (group 0 outputsWKC * 2) + inputsWKC,
evaluated on the current group table at every property access. -/
def _get_expected_wkc (st : MasterState) : Nat :=
  st.group0.outputsWKC * 2 + st.group0.inputsWKC

/-- Values produced by ecx_config_init: its return value and the slave count
it writes into the context. -/
structure ConfigInitEnv where
  retVal : Int
  slavecount : Nat
deriving DecidableEq

/-- CdefMaster._get_slave: bounds check against _ec_slavecount, then handle
creation (a handle is modelled by its 1-based slave position pos + 1). -/
def _get_slave (slavecount pos : Nat) : Except Exc Nat :=
  if slavecount ≤ pos then Except.error Exc.IndexError
  else Except.ok (pos + 1)

/-- CdefMaster.config_init: after the guard, self.slaves is replaced by a
fresh empty list, ecx_config_init runs, and only on a positive return value
the loop appends _get_slave i for i in range of _ec_slavecount; by
the _get_slave_in_range lemma each iteration yields the handle i + 1. -/
def config_init (st : MasterState) (env : ConfigInitEnv) : MasterState × Except Exc Int :=
  if ¬ st.context_initialized then
    (st, Except.error Exc.NetworkInterfaceNotOpenError)
  else if 0 < env.retVal then
    (⟨st.context_initialized, (List.range env.slavecount).map (fun i => i + 1), st.group0⟩,
      Except.ok env.retVal)
  else
    (⟨st.context_initialized, [], st.group0⟩, Except.ok env.retVal)

/-- Process-data view of one ec_slavet entry: the mapped input/output byte
and bit counts and the mapped regions of the shared IO map (a byte address
to byte value function). -/
structure SlavePd where
  Ibytes : Nat
  Ibits : Nat
  Obytes : Nat
  Obits : Nat
  inputsMem : Nat → Nat
  outputsMem : Nat → Nat

/-- CdefSlave._get_input: bytes object of Ibytes bytes, forced to one byte
when Ibytes is 0 while Ibits is positive. -/
def _get_input (s : SlavePd) : List Nat :=
  (List.range (if s.Ibytes = 0 ∧ 0 < s.Ibits then 1 else s.Ibytes)).map s.inputsMem

/-- CdefSlave._get_output: bytes object of Obytes bytes, forced to one byte
when Obytes is 0 while Obits is positive. -/
def _get_output (s : SlavePd) : List Nat :=
  (List.range (if s.Obytes = 0 ∧ 0 < s.Obits then 1 else s.Obytes)).map s.outputsMem

/-- EtherCAT AL state constants used here (EC_STATE_INIT and
EC_STATE_OPERATIONAL). -/
def INIT_STATE : Nat := 0x01

/-- EC_STATE_OPERATIONAL. -/
def OP_STATE : Nat := 0x08

/-- Watchdog divider register address. -/
def ECT_REG_WD_DIV : Nat := 0x0400

/-- PDI watchdog time register address. -/
def ECT_REG_WD_TIME_PDI : Nat := 0x0410

/-- Process-data watchdog time register address. -/
def ECT_REG_WD_TIME_PROCESSDATA : Nat := 0x0420

/-- Sync-manager configuration entry (the StartAddr and SMlength fields
amend_mbx rewrites). -/
structure SmConfig where
  StartAddr : Nat
  SMlength : Nat
deriving DecidableEq

/-- Mailbox/sync-manager view of one ec_slavet entry plus its AL state. -/
structure SlaveMbxState where
  state : Nat
  SM0 : SmConfig
  SM1 : SmConfig
  mbx_wo : Nat
  mbx_l : Nat
  mbx_ro : Nat
  mbx_rl : Nat
deriving DecidableEq

/-- The mailbox argument of amend_mbx: the strings out and in, or anything
else. -/
inductive MbxSel where
  | out
  | in_
  | other
deriving DecidableEq

/-- Working counters of the two _fpwr register writes inside amend_mbx. -/
structure AmendEnv where
  clearWkc : Int
  writeWkc : Int
deriving DecidableEq

/-- CdefSlave.amend_mbx. Returns the slave entry as left behind together
with the raised exception, if any. The function consults only the
initialized flag of the master; it never reads the slave AL state. -/
def amend_mbx (initialized : Bool) (s : SlaveMbxState) (mailbox : MbxSel)
    (start_address size : Nat) (env : AmendEnv) : SlaveMbxState × Option Exc :=
  if ¬ initialized then (s, some Exc.NetworkInterfaceNotOpenError)
  else
    match mailbox with
    | MbxSel.out =>
      if env.clearWkc ≠ 1 then (s, some (Exc.WkcError none))
      else
        let s1 : SlaveMbxState :=
          ⟨s.state, ⟨start_address, size⟩, s.SM1, start_address, size, s.mbx_ro, s.mbx_rl⟩
        if env.writeWkc ≠ 1 then (s1, some (Exc.WkcError none))
        else (s1, none)
    | MbxSel.in_ =>
      if env.clearWkc ≠ 1 then (s, some (Exc.WkcError none))
      else
        let s1 : SlaveMbxState :=
          ⟨s.state, s.SM0, ⟨start_address, size⟩, s.mbx_wo, s.mbx_l, start_address, size⟩
        if env.writeWkc ≠ 1 then (s1, some (Exc.WkcError none))
        else (s1, none)
    | MbxSel.other => (s, some Exc.AttributeError)

/-- The wd_type argument of set_watchdog: the strings pdi and processdata,
or anything else. -/
inductive WdType where
  | pdi
  | processdata
  | other
deriving DecidableEq

/-- Values produced by the register accesses inside set_watchdog: the 16-bit
divider register read via _fprd and the working counters of that read and of
the final _fpwr write. -/
structure WatchdogEnv where
  wd_div_reg : Nat
  fprdWkc : Int
  fpwrWkc : Int
deriving DecidableEq

/-- Register written by set_watchdog for each wd_type. -/
def wd_type_to_reg (wd : WdType) : Nat :=
  match wd with
  | WdType.pdi => ECT_REG_WD_TIME_PDI
  | WdType.processdata => ECT_REG_WD_TIME_PROCESSDATA
  | WdType.other => 0

/-- The watchdog register value computed by set_watchdog:
int(wd_time_ms * 1000000.0 / wd_div_ns) with wd_div_ns = 40 * (reg + 2),
evaluated exactly on the rational wd_time_ms (the source computes the
quotient in Python float arithmetic and truncates toward zero with the
int() builtin; on a rational num/den the truncated quotient is the
t-division of num * 1000000 by den * wd_div_ns). -/
def wd_time_reg_of (wd_time_ms : ℚ) (wd_div_reg : Nat) : Int :=
  Int.tdiv (wd_time_ms.num * 1000000)
    ((wd_time_ms.den : Int) * ((40 * (wd_div_reg + 2) : Nat) : Int))

/-- CdefSlave.set_watchdog. wd_time_ms is idealized as a rational (the
source computes with a Python float). Returns the (register, value) pair
written by the final _fpwr, if it was reached, and the raised exception, if
any. OverflowError models int.to_bytes with signed=False applied to a
negative register value. The function consults only the initialized flag of
the master; it never reads the slave AL state. -/
def set_watchdog (initialized : Bool) (wd_type : WdType) (wd_time_ms : ℚ)
    (env : WatchdogEnv) : Option (Nat × Nat) × Option Exc :=
  if ¬ initialized then (none, some Exc.NetworkInterfaceNotOpenError)
  else
    match wd_type with
    | WdType.other => (none, some Exc.AttributeError)
    | wd =>
      if env.fprdWkc ≠ 1 then (none, some (Exc.WkcError none))
      else
        let wd_time_reg : Int := wd_time_reg_of wd_time_ms env.wd_div_reg
        if 0xFFFF < wd_time_reg then (none, some Exc.AttributeError)
        else if wd_time_reg < 0 then (none, some Exc.OverflowError)
        else if env.fpwrWkc ≠ 1 then (none, some (Exc.WkcError none))
        else (some (wd_type_to_reg wd, wd_time_reg.toNat), none)

/-- Per-slave EoE receive state (_eoe_rx_data) and the results of the
ecx_EOEreadfragment call inside _eoe_hook. -/
structure EoeHookEnv where
  wkc : Int               -- ecx_EOEreadfragment return value
  size_of_rx : Nat        -- rxInfo._size_of_rx after the call
  rxbuf : Nat → Nat       -- rxInfo._rxbuf contents after the call
  callbackRaises : Bool   -- the user frame callback raises an Exception

/-- Observable outcome of one _eoe_hook execution. callbackArg is the
(frame bytes, slave number) pair passed to the registered frame callback,
when it was invoked; caughtException records that an exception raised by the
callback was caught by the try/except inside the hook and only printed. The
outcome carries no exception channel: the hook never propagates one. -/
structure EoeHookOut where
  retVal : Int
  callbackArg : Option (List Nat × Nat)
  caughtException : Bool

/-- _eoe_hook: the EOEhook installed by Master.set_eoe_callback, executed
with the per-slave receive state of the slave the fragment came from. -/
def _eoe_hook (slave : Nat) (env : EoeHookEnv) : EoeHookOut :=
  if 0 < env.wkc then
    ⟨1, some ((List.range env.size_of_rx).map env.rxbuf, slave), env.callbackRaises⟩
  else
    ⟨1, none, false⟩

/-- Concrete Emergency record used by witness theorems. -/
def wEmcyRec : ErrRec := ⟨1, ErrType.emergency, 0, 0, 0, 0x3310, 0x01, 1, 2, 3⟩

/-- Concrete SDO-abort record used by witness theorems. -/
def wSdoRec : ErrRec := ⟨1, ErrType.sdoError, 0x6040, 0, 0x06090011, 0, 0, 0, 0, 0⟩

/-- Concrete sdo_read environment for the C1 witness. -/
def c1EnvR : SdoReadEnv := ⟨1, [wEmcyRec], 4, fun _ => 0, true⟩

/-- Concrete sdo_write environment for the C1 witness. -/
def c1EnvW : SdoWriteEnv := ⟨1, [wEmcyRec]⟩

/-- Concrete config_map environment for the C2 witness. -/
def c2Env : ConfigMapEnv := ⟨64, [⟨false, 0⟩], [wSdoRec]⟩

/-- Concrete closed master state for the C3 witness. -/
def c3St : MasterState := ⟨false, [1], ⟨1, 1⟩⟩

/-- Concrete environments for the C3 witness. -/
def c3CEnv : ConfigInitEnv := ⟨1, 1⟩

/-- Concrete config_map environment for the C3 witness. -/
def c3MEnv : ConfigMapEnv := ⟨0, [], []⟩

/-- Concrete sdo_read environment for the C3 witness. -/
def c3EnvR : SdoReadEnv := ⟨1, [], 0, fun _ => 0, true⟩

/-- Concrete sdo_write environment for the C3 witness. -/
def c3EnvW : SdoWriteEnv := ⟨1, []⟩

/-- Concrete slave entry for the C3 witness. -/
def c3Slave : SlaveMbxState := ⟨INIT_STATE, ⟨0, 0⟩, ⟨0, 0⟩, 0, 0, 0, 0⟩

/-- Concrete sdo_read environment (working counter 0) for the C4 witness. -/
def c4EnvR : SdoReadEnv := ⟨0, [], 4, fun _ => 0, true⟩

/-- Concrete sdo_write environment (working counter 0) for the C4 witness. -/
def c4EnvW : SdoWriteEnv := ⟨0, []⟩

/-- Concrete master state for the C5 witness. -/
def c5St : MasterState := ⟨true, [], ⟨3, 2⟩⟩

/-- Concrete process-data slave entry for the C6 witness. -/
def c6Pd : SlavePd := ⟨0, 4, 2, 0, fun _ => 1, fun _ => 2⟩

/-- Concrete slave entry in Operational state for C7. -/
def c7Slave : SlaveMbxState := ⟨OP_STATE, ⟨0x1000, 128⟩, ⟨0x1080, 128⟩, 0x1000, 128, 0x1080, 128⟩

/-- Concrete watchdog environment for C7 (divider register at its default
value 0x09C2 = 2498, both register accesses succeeding). -/
def c7WEnv : WatchdogEnv := ⟨2498, 1, 1⟩

/-- Concrete EoE hook environment for the C8 witness. -/
def c8Env : EoeHookEnv := ⟨1, 60, fun _ => 0xAB, false⟩

/-- Concrete sdo_read environment for the C9 witness. -/
def c9Env : SdoReadEnv := ⟨1, [], 16, fun _ => 7, true⟩

/-- Concrete master states and environment for the C10 witness. -/
def c10St : MasterState := ⟨true, [9, 9], ⟨0, 0⟩⟩

/-- Second concrete master state (different prior slaves list) for C10. -/
def c10StB : MasterState := ⟨true, [7], ⟨5, 5⟩⟩

/-- Concrete enumeration result for the C10 witness. -/
def c10Env : ConfigInitEnv := ⟨2, 2⟩

/-- _get_slave succeeds for every position below the slave count, returning
the handle with 1-based position pos + 1. -/
theorem _get_slave_in_range (n i : Nat) (h : i < n) :
    _get_slave n i = Except.ok (i + 1) := by
  unfold _get_slave
  rw [if_neg (by omega)]

/-- The sdo_write drain loop never stops on an assert failure. -/
theorem drainWrite_no_assert (n : Nat) (q : List ErrRec) (err : ErrRec) :
    (drainWrite n q).2 ≠ some (DrainStop.assertFail err) := by
  induction q with
  | nil => simp [drainWrite]
  | cons e rest ih =>
    by_cases hd : e.Etype = ErrType.emergency ∧ 0 < n
    · simpa [drainWrite, hd] using ih
    · simp [drainWrite, hd]

/-- When the sdo_write drain loop runs to completion, the whole queue was
dispatched and every record was a dispatchable Emergency. -/
theorem drainWrite_complete (n : Nat) (q : List ErrRec)
    (h : (drainWrite n q).2 = none) :
    (drainWrite n q).1 = q ∧ ∀ e ∈ q, dispatchable n e := by
  induction q with
  | nil => simp [drainWrite]
  | cons e rest ih =>
    by_cases hd : e.Etype = ErrType.emergency ∧ 0 < n
    · have h2 : (drainWrite n rest).2 = none := by
        simpa [drainWrite, hd] using h
      rcases ih h2 with ⟨h1, hall⟩
      constructor
      · simp [drainWrite, hd, h1]
      · intro x hx
        rcases List.mem_cons.mp hx with hx | hx
        · subst hx; exact hd
        · exact hall x hx
    · exfalso
      simp [drainWrite, hd] at h

/-- When the sdo_write drain loop stops on a raised record, that record
directly follows the dispatched prefix of the queue, is not dispatchable,
and every dispatched record is a dispatchable Emergency. -/
theorem drainWrite_raised (n : Nat) (q : List ErrRec) (err : ErrRec)
    (h : (drainWrite n q).2 = some (DrainStop.raised err)) :
    (∃ rest, q = (drainWrite n q).1 ++ err :: rest) ∧ ¬ dispatchable n err ∧
    ∀ e ∈ (drainWrite n q).1, dispatchable n e := by
  induction q with
  | nil => simp [drainWrite] at h
  | cons e rest ih =>
    by_cases hd : e.Etype = ErrType.emergency ∧ 0 < n
    · have h2 : (drainWrite n rest).2 = some (DrainStop.raised err) := by
        simpa [drainWrite, hd] using h
      rcases ih h2 with ⟨⟨tail, htail⟩, hnd, hall⟩
      have hfst : (drainWrite n (e :: rest)).1 = e :: (drainWrite n rest).1 := by
        simp [drainWrite, hd]
      refine ⟨⟨tail, ?_⟩, hnd, ?_⟩
      · rw [hfst, List.cons_append, ← htail]
      · intro x hx
        rw [hfst] at hx
        rcases List.mem_cons.mp hx with hx2 | hx2
        · subst hx2; exact hd
        · exact hall x hx2
    · have hfst : (drainWrite n (e :: rest)).1 = [] := by
        simp [drainWrite, hd]
      have h2 : e = err := by
        simpa [drainWrite, hd] using h
      subst h2
      refine ⟨⟨rest, by rw [hfst]; rfl⟩, hd, ?_⟩
      rw [hfst]
      intro x hx
      simp at hx

/-- When every queued record carries the position of the addressed slave,
the sdo_read drain loop (with its assert) behaves exactly like the
sdo_write drain loop. -/
theorem drainRead_eq_drainWrite (pos n : Nat) (q : List ErrRec)
    (hslave : ∀ e ∈ q, e.Slave = pos) :
    drainRead pos n q = drainWrite n q := by
  induction q with
  | nil => rfl
  | cons e rest ih =>
    have he : e.Slave = pos := hslave e (List.mem_cons_self e rest)
    have hrest : ∀ x ∈ rest, x.Slave = pos :=
      fun x hx => hslave x (List.mem_cons_of_mem e hx)
    by_cases hd : e.Etype = ErrType.emergency ∧ 0 < n
    · simp [drainRead, drainWrite, he, hd, ih hrest]
    · simp [drainRead, drainWrite, he, hd]

/-- The sdo_write drain loop satisfies the claimed drain discipline. -/
theorem drainWrite_discipline (n : Nat) (q : List ErrRec) :
    drainDiscipline n q (drainWrite n q).1 (drainWrite n q).2 := by
  refine ⟨fun h => drainWrite_complete n q h, fun err h => ?_,
    fun err => drainWrite_no_assert n q err⟩
  rcases drainWrite_raised n q err h with ⟨hex, hnd, hall⟩
  exact ⟨hex, hnd, fun hmem => hnd (hall err hmem), hall⟩

/-- The dispatched and drainStop fields of the sdo_read outcome are the two
components of the drain loop result. -/
theorem sdo_read_drain_fields (pos n size : Nat) (env : SdoReadEnv)
    (hnm : ¬ (size ≠ 0 ∧ env.mallocOk = false)) :
    (sdo_read true false pos n size env).dispatched = (drainRead pos n env.errQueue).1 ∧
    (sdo_read true false pos n size env).drainStop = (drainRead pos n env.errQueue).2 := by
  unfold sdo_read
  rcases hs : (drainRead pos n env.errQueue).2 with _ | stop
  · by_cases hr : env.result > 0 <;> simp [hnm, hs, hr]
  · rcases stop with err | err <;> simp [hnm, hs]

/-- The allocated and freed fields of the sdo_read outcome, on every path
that is not an assert failure (and on every path at all when size is 0). -/
theorem sdo_read_alloc_freed (pos n size : Nat) (env : SdoReadEnv)
    (hnm : ¬ (size ≠ 0 ∧ env.mallocOk = false))
    (hok : size = 0 ∨ ∀ err, (drainRead pos n env.errQueue).2 ≠ some (DrainStop.assertFail err)) :
    (sdo_read true false pos n size env).allocated = (if size = 0 then none else some size) ∧
    (sdo_read true false pos n size env).freed = true := by
  unfold sdo_read
  rcases hs : (drainRead pos n env.errQueue).2 with _ | stop
  · by_cases hr : env.result > 0 <;> simp [hnm, hs, hr]
  · rcases stop with err | err
    · rcases hok with h0 | hno
      · subst h0; simp [hnm, hs]
      · exact absurd hs (hno err)
    · simp [hnm, hs]

/-- The sdo_read result on the path where the drain loop completed. -/
theorem sdo_read_result_none (pos n size : Nat) (env : SdoReadEnv)
    (hnm : ¬ (size ≠ 0 ∧ env.mallocOk = false))
    (hs : (drainRead pos n env.errQueue).2 = none) :
    (sdo_read true false pos n size env).result =
      (if ¬ env.result > 0 then Except.error (Exc.WkcError (some env.result))
       else Except.ok ((List.range env.size_inout).map env.buf)) := by
  unfold sdo_read
  by_cases hr : env.result > 0 <;> simp [hnm, hs, hr]

/-- The sdo_read result on the path where the drain loop raised a record. -/
theorem sdo_read_result_raised (pos n size : Nat) (env : SdoReadEnv)
    (hnm : ¬ (size ≠ 0 ∧ env.mallocOk = false)) (err : ErrRec)
    (hs : (drainRead pos n env.errQueue).2 = some (DrainStop.raised err)) :
    (sdo_read true false pos n size env).result = Except.error (_raise_exception err) := by
  unfold sdo_read
  simp [hnm, hs]

/-- Every successful sdo_read returns exactly the size_inout bytes the
low-level call reported. -/
theorem sdo_read_ok_length (pos n size : Nat) (env : SdoReadEnv)
    (hnm : ¬ (size ≠ 0 ∧ env.mallocOk = false)) :
    ∀ bs, (sdo_read true false pos n size env).result = Except.ok bs →
      bs.length = env.size_inout := by
  intro bs h
  unfold sdo_read at h
  rcases hs : (drainRead pos n env.errQueue).2 with _ | stop
  · rw [hs] at h
    by_cases hr : env.result > 0
    · simp [hnm, hr] at h
      rw [← h]
      simp
    · simp [hnm, hr] at h
  · rcases stop with err | err <;> (rw [hs] at h; simp [hnm] at h)

/-- The dispatched and drainStop fields of the sdo_write outcome are the two
components of the drain loop result. -/
theorem sdo_write_drain_fields (n : Nat) (env : SdoWriteEnv) :
    (sdo_write true n env).dispatched = (drainWrite n env.errQueue).1 ∧
    (sdo_write true n env).drainStop = (drainWrite n env.errQueue).2 := by
  unfold sdo_write
  rcases hs : (drainWrite n env.errQueue).2 with _ | stop
  · by_cases hr : env.result > 0 <;> simp [hs, hr]
  · simp [hs]

/-- _collect_mailbox_errors keeps one item per drained record. -/
theorem _collect_mailbox_errors_length (q : List ErrRec) :
    (_collect_mailbox_errors q).length = q.length := by
  induction q with
  | nil => rfl
  | cons e rest ih => simp [_collect_mailbox_errors, ih]

/-- C1: After the low-level SDO exchange, sdo_read and sdo_write pop error
records in a loop until the queue is empty rather than stopping at the
first; every drained Emergency record is dispatched to the registered
emergency callbacks when at least one is registered and is then not raised,
while an Emergency record without registered callbacks, or a record of any
other type, is raised to the caller immediately; no record is both raised
and dispatched. -/
theorem sdo_exchange_drains_error_queue (pos n size : Nat)
    (envR : SdoReadEnv) (envW : SdoWriteEnv)
    (hmalloc : envR.mallocOk = true)
    (hslave : ∀ e ∈ envR.errQueue, e.Slave = pos) :
    drainDiscipline n envR.errQueue (sdo_read true false pos n size envR).dispatched
      (sdo_read true false pos n size envR).drainStop ∧
    drainDiscipline n envW.errQueue (sdo_write true n envW).dispatched
      (sdo_write true n envW).drainStop ∧
    (∀ err, (sdo_read true false pos n size envR).drainStop = some (DrainStop.raised err) →
      (sdo_read true false pos n size envR).result = Except.error (_raise_exception err)) ∧
    (∀ err, (sdo_write true n envW).drainStop = some (DrainStop.raised err) →
      (sdo_write true n envW).result = Except.error (_raise_exception err)) ∧
    ((sdo_read true false pos n size envR).drainStop = none →
      (sdo_read true false pos n size envR).result =
        Except.error (Exc.WkcError (some envR.result)) ∨
      (sdo_read true false pos n size envR).result =
        Except.ok ((List.range envR.size_inout).map envR.buf)) ∧
    ((sdo_write true n envW).drainStop = none →
      (sdo_write true n envW).result = Except.error (Exc.WkcError (some envW.result)) ∨
      (sdo_write true n envW).result = Except.ok ()) := by
  have hnm : ¬ (size ≠ 0 ∧ envR.mallocOk = false) := by simp [hmalloc]
  rcases sdo_read_drain_fields pos n size envR hnm with ⟨hd1, hd2⟩
  rcases sdo_write_drain_fields n envW with ⟨hw1, hw2⟩
  have hEq := drainRead_eq_drainWrite pos n envR.errQueue hslave
  refine ⟨?_, ?_, ?_, ?_, ?_, ?_⟩
  · rw [hd1, hd2, hEq]
    exact drainWrite_discipline n envR.errQueue
  · rw [hw1, hw2]
    exact drainWrite_discipline n envW.errQueue
  · intro err h
    rw [hd2] at h
    exact sdo_read_result_raised pos n size envR hnm err h
  · intro err h
    rw [hw2] at h
    unfold sdo_write
    simp [h, stopExc]
  · intro h
    rw [hd2] at h
    rw [sdo_read_result_none pos n size envR hnm h]
    by_cases hr : envR.result > 0 <;> simp [hr]
  · intro h
    rw [hw2] at h
    unfold sdo_write
    by_cases hr : envW.result > 0 <;> simp [h, hr]

/-- C1 witness at a concrete environment: one Emergency record with one
registered callback, on both sdo_read and sdo_write. -/
theorem sdo_exchange_drains_error_queue_witness :
    drainDiscipline 1 c1EnvR.errQueue (sdo_read true false 1 1 0 c1EnvR).dispatched
      (sdo_read true false 1 1 0 c1EnvR).drainStop :=
  (sdo_exchange_drains_error_queue 1 1 0 c1EnvR c1EnvW rfl (by decide)).1

/-- C2: config_map and config_overlap_map re-raise the first captured
config-callback exception (with its captured sys.exc_info identity) with
priority over mailbox errors; otherwise a non-empty drained error queue is
surfaced as a single ConfigMapError carrying the full classified list (one
item per drained record); only when neither occurred is the IO map size
returned, so either error condition fails the whole operation. -/
theorem config_map_error_reporting (env : ConfigMapEnv) :
    (∀ info, firstCallbackExc env.slaveCds = some info →
      config_map true env = Except.error (Exc.CallbackException info) ∧
      config_overlap_map true env = Except.error (Exc.CallbackException info)) ∧
    (firstCallbackExc env.slaveCds = none → env.errQueue ≠ [] →
      config_map true env =
        Except.error (Exc.ConfigMapError (_collect_mailbox_errors env.errQueue)) ∧
      config_overlap_map true env =
        Except.error (Exc.ConfigMapError (_collect_mailbox_errors env.errQueue)) ∧
      (_collect_mailbox_errors env.errQueue).length = env.errQueue.length) ∧
    (firstCallbackExc env.slaveCds = none → env.errQueue = [] →
      config_map true env = Except.ok env.retVal ∧
      config_overlap_map true env = Except.ok env.retVal) := by
  refine ⟨?_, ?_, ?_⟩
  · intro info h
    constructor <;> simp [config_map, config_overlap_map, h]
  · intro h hq
    have hlen : 0 < (_collect_mailbox_errors env.errQueue).length := by
      rw [_collect_mailbox_errors_length]
      exact List.length_pos.mpr hq
    exact ⟨by simp [config_map, h, hlen], by simp [config_overlap_map, h, hlen],
      _collect_mailbox_errors_length env.errQueue⟩
  · intro h hq
    constructor <;> simp [config_map, config_overlap_map, h, hq, _collect_mailbox_errors]

/-- C2 witness: no callback exception, one queued SDO-abort record. -/
theorem config_map_error_reporting_witness :
    config_map true c2Env =
      Except.error (Exc.ConfigMapError (_collect_mailbox_errors c2Env.errQueue)) ∧
    config_overlap_map true c2Env =
      Except.error (Exc.ConfigMapError (_collect_mailbox_errors c2Env.errQueue)) ∧
    (_collect_mailbox_errors c2Env.errQueue).length = c2Env.errQueue.length :=
  (config_map_error_reporting c2Env).2.1 (by decide) (by decide)

/-- C3: with the context_initialized flag cleared (before open, or at any
time after close), every modelled master operation other than open, and
every modelled slave operation that consults the flag, fails with
NetworkInterfaceNotOpenError; open sets the flag exactly on success
(raising ConnectionError and leaving the state untouched when ecx_init
returns 0), and close clears it. -/
theorem operations_require_initialized_context (st : MasterState)
    (h : st.context_initialized = false)
    (cenv : ConfigInitEnv) (menv : ConfigMapEnv)
    (pos n size : Nat) (envR : SdoReadEnv) (envW : SdoWriteEnv)
    (b : Bool) (i : Int) (s : SlaveMbxState) (mb : MbxSel) (a sz : Nat)
    (aenv : AmendEnv) (wt : WdType) (wtime : ℚ) (wenv : WatchdogEnv) :
    config_init st cenv = (st, Except.error Exc.NetworkInterfaceNotOpenError) ∧
    config_map st.context_initialized menv = Except.error Exc.NetworkInterfaceNotOpenError ∧
    config_overlap_map st.context_initialized menv =
      Except.error Exc.NetworkInterfaceNotOpenError ∧
    config_dc st.context_initialized b = Except.error Exc.NetworkInterfaceNotOpenError ∧
    read_state st.context_initialized i = Except.error Exc.NetworkInterfaceNotOpenError ∧
    write_state st.context_initialized i = Except.error Exc.NetworkInterfaceNotOpenError ∧
    state_check st.context_initialized i = Except.error Exc.NetworkInterfaceNotOpenError ∧
    send_processdata st.context_initialized i = Except.error Exc.NetworkInterfaceNotOpenError ∧
    send_overlap_processdata st.context_initialized i =
      Except.error Exc.NetworkInterfaceNotOpenError ∧
    receive_processdata st.context_initialized i =
      Except.error Exc.NetworkInterfaceNotOpenError ∧
    (sdo_read st.context_initialized false pos n size envR).result =
      Except.error Exc.NetworkInterfaceNotOpenError ∧
    (sdo_write st.context_initialized n envW).result =
      Except.error Exc.NetworkInterfaceNotOpenError ∧
    (amend_mbx st.context_initialized s mb a sz aenv).2 =
      some Exc.NetworkInterfaceNotOpenError ∧
    (set_watchdog st.context_initialized wt wtime wenv).2 =
      some Exc.NetworkInterfaceNotOpenError ∧
    (∀ r : Int, r ≠ 0 → (master_open st r).1.context_initialized = true) ∧
    (∀ r : Int, r = 0 → master_open st r = (st, some Exc.ConnectionError)) ∧
    (master_close st).context_initialized = false := by
  refine ⟨?_, ?_, ?_, ?_, ?_, ?_, ?_, ?_, ?_, ?_, ?_, ?_, ?_, ?_, ?_, ?_, ?_⟩
  · simp [config_init, h]
  · simp [config_map, h]
  · simp [config_overlap_map, h]
  · simp [config_dc, h]
  · simp [read_state, h]
  · simp [write_state, h]
  · simp [state_check, h]
  · simp [send_processdata, h]
  · simp [send_overlap_processdata, h]
  · simp [receive_processdata, h]
  · simp [sdo_read, h]
  · simp [sdo_write, h]
  · simp [amend_mbx, h]
  · simp [set_watchdog, h]
  · intro r hr
    simp [master_open, hr]
  · intro r hr
    simp [master_open, hr]
  · simp [master_close]

/-- C3 witness: a closed master state with the flag cleared. -/
theorem operations_require_initialized_context_witness :
    config_init c3St c3CEnv = (c3St, Except.error Exc.NetworkInterfaceNotOpenError) :=
  (operations_require_initialized_context c3St rfl c3CEnv c3MEnv 1 0 0 c3EnvR c3EnvW
    true 0 c3Slave MbxSel.out 0 0 ⟨1, 1⟩ WdType.pdi 1 ⟨2498, 1, 1⟩).1

/-- C4: when the drain loop raised nothing, a non-positive working counter
from the low-level SDO call makes sdo_read and sdo_write raise WkcError
carrying exactly that value, and a positive working counter never yields a
WkcError. -/
theorem nonpositive_wkc_raises_wkc_error (pos n size : Nat)
    (envR : SdoReadEnv) (envW : SdoWriteEnv)
    (hmalloc : envR.mallocOk = true)
    (hR : (sdo_read true false pos n size envR).drainStop = none)
    (hW : (sdo_write true n envW).drainStop = none) :
    (envR.result ≤ 0 → (sdo_read true false pos n size envR).result =
      Except.error (Exc.WkcError (some envR.result))) ∧
    (0 < envR.result → ∀ w, (sdo_read true false pos n size envR).result ≠
      Except.error (Exc.WkcError w)) ∧
    (envW.result ≤ 0 → (sdo_write true n envW).result =
      Except.error (Exc.WkcError (some envW.result))) ∧
    (0 < envW.result → ∀ w, (sdo_write true n envW).result ≠
      Except.error (Exc.WkcError w)) := by
  have hnm : ¬ (size ≠ 0 ∧ envR.mallocOk = false) := by simp [hmalloc]
  rcases sdo_read_drain_fields pos n size envR hnm with ⟨_, hd2⟩
  rcases sdo_write_drain_fields n envW with ⟨_, hw2⟩
  rw [hd2] at hR
  rw [hw2] at hW
  refine ⟨?_, ?_, ?_, ?_⟩
  · intro hle
    rw [sdo_read_result_none pos n size envR hnm hR]
    simp [not_lt.mpr hle]
  · intro hgt w
    rw [sdo_read_result_none pos n size envR hnm hR]
    simp [hgt]
  · intro hle
    unfold sdo_write
    simp [hW, not_lt.mpr hle]
  · intro hgt w
    unfold sdo_write
    simp [hW, hgt]

/-- C4 witness: empty error queue and working counter 0. -/
theorem nonpositive_wkc_raises_wkc_error_witness :
    (sdo_read true false 1 0 0 c4EnvR).result =
      Except.error (Exc.WkcError (some c4EnvR.result)) :=
  (nonpositive_wkc_raises_wkc_error 1 0 0 c4EnvR c4EnvW rfl (by decide) (by decide)).1
    (by decide)

/-- C5: the expected_wkc property is exactly twice the group-0 outputsWKC
plus the group-0 inputsWKC, evaluated on the group table at access time: on
a state whose group-0 counters were replaced (as a mapping call does) the
property returns the value of the new counters, with no dependence on the
rest of the state. -/
theorem expected_wkc_formula (st : MasterState) (g : GroupInfo) :
    _get_expected_wkc st = 2 * st.group0.outputsWKC + st.group0.inputsWKC ∧
    _get_expected_wkc ⟨st.context_initialized, st.slaves, g⟩ =
      2 * g.outputsWKC + g.inputsWKC := by
  constructor <;> simp [_get_expected_wkc] <;> ring

/-- C5 witness at a concrete state. -/
theorem expected_wkc_formula_witness :
    _get_expected_wkc c5St = 2 * c5St.group0.outputsWKC + c5St.group0.inputsWKC :=
  (expected_wkc_formula c5St ⟨0, 0⟩).1

/-- C6: the input property returns exactly Ibytes bytes except that the
length is forced to 1 when Ibytes is 0 while Ibits is positive, and
symmetrically for the output property with Obytes and Obits; hence the
returned length is 0 exactly when both the byte and the bit count are 0. -/
theorem process_data_length_rule (s : SlavePd) :
    (_get_input s).length = (if s.Ibytes = 0 ∧ 0 < s.Ibits then 1 else s.Ibytes) ∧
    (_get_output s).length = (if s.Obytes = 0 ∧ 0 < s.Obits then 1 else s.Obytes) ∧
    ((_get_input s).length = 0 ↔ s.Ibytes = 0 ∧ s.Ibits = 0) ∧
    ((_get_output s).length = 0 ↔ s.Obytes = 0 ∧ s.Obits = 0) := by
  have hi : (_get_input s).length = (if s.Ibytes = 0 ∧ 0 < s.Ibits then 1 else s.Ibytes) := by
    simp [_get_input]
  have ho : (_get_output s).length = (if s.Obytes = 0 ∧ 0 < s.Obits then 1 else s.Obytes) := by
    simp [_get_output]
  refine ⟨hi, ho, ?_, ?_⟩
  · rw [hi]
    by_cases h1 : s.Ibytes = 0 ∧ 0 < s.Ibits
    · simp only [if_pos h1]
      constructor
      · intro hc
        exact absurd hc (by omega)
      · intro hc
        omega
    · simp only [if_neg h1]
      constructor
      · intro h0
        refine ⟨h0, by omega⟩
      · intro h0
        exact h0.1
  · rw [ho]
    by_cases h1 : s.Obytes = 0 ∧ 0 < s.Obits
    · simp only [if_pos h1]
      constructor
      · intro hc
        exact absurd hc (by omega)
      · intro hc
        omega
    · simp only [if_neg h1]
      constructor
      · intro h0
        refine ⟨h0, by omega⟩
      · intro h0
        exact h0.1

/-- C6 witness at a concrete slave entry (0 bytes, 4 bits in; 2 bytes out). -/
theorem process_data_length_rule_witness :
    (_get_input c6Pd).length =
      (if c6Pd.Ibytes = 0 ∧ 0 < c6Pd.Ibits then 1 else c6Pd.Ibytes) :=
  (process_data_length_rule c6Pd).1

/-- C7 counterexample: with the slave in Operational state (not Init) and
both register writes succeeding, amend_mbx raises nothing and applies the
mailbox change, and set_watchdog raises nothing and writes the watchdog
register, so neither operation raises a state error, contrary to the claim
that a non-Init slave causes a state error and no applied change. -/
theorem amend_mbx_no_state_check_counterexample :
    amend_mbx true c7Slave MbxSel.out 0x1800 256 ⟨1, 1⟩ =
      (⟨OP_STATE, ⟨0x1800, 256⟩, ⟨0x1080, 128⟩, 0x1800, 256, 0x1080, 128⟩, none) ∧
    set_watchdog true WdType.pdi 100 c7WEnv =
      (some (ECT_REG_WD_TIME_PDI, 1000), none) := by
  constructor
  · rfl
  · decide

/-- C7 amended: amend_mbx and set_watchdog verify only that the network
interface is open; neither reads the slave AL state, so with the slave in
any state other than Init and successful register accesses, amend_mbx
applies the mailbox change and set_watchdog writes the computed watchdog
register value, and neither raises. -/
theorem amend_mbx_set_watchdog_ignore_state (s : SlaveMbxState)
    (_hs : s.state ≠ INIT_STATE) (start_address size : Nat)
    (wd_time_ms : ℚ) (wenv : WatchdogEnv)
    (hfprd : wenv.fprdWkc = 1) (hfpwr : wenv.fpwrWkc = 1)
    (hlo : 0 ≤ wd_time_reg_of wd_time_ms wenv.wd_div_reg)
    (hhi : wd_time_reg_of wd_time_ms wenv.wd_div_reg ≤ 0xFFFF) :
    amend_mbx true s MbxSel.out start_address size ⟨1, 1⟩ =
      (⟨s.state, ⟨start_address, size⟩, s.SM1, start_address, size, s.mbx_ro, s.mbx_rl⟩,
        none) ∧
    amend_mbx true s MbxSel.in_ start_address size ⟨1, 1⟩ =
      (⟨s.state, s.SM0, ⟨start_address, size⟩, s.mbx_wo, s.mbx_l, start_address, size⟩,
        none) ∧
    set_watchdog true WdType.pdi wd_time_ms wenv =
      (some (ECT_REG_WD_TIME_PDI, (wd_time_reg_of wd_time_ms wenv.wd_div_reg).toNat),
        none) ∧
    set_watchdog true WdType.processdata wd_time_ms wenv =
      (some (ECT_REG_WD_TIME_PROCESSDATA, (wd_time_reg_of wd_time_ms wenv.wd_div_reg).toNat),
        none) := by
  refine ⟨by simp [amend_mbx], by simp [amend_mbx], ?_, ?_⟩ <;>
    (unfold set_watchdog
     simp [hfprd, hfpwr, wd_type_to_reg, not_lt.mpr hhi, not_lt.mpr hlo])

/-- C7 amended witness: Operational slave, default divider, 100 ms. -/
theorem amend_mbx_set_watchdog_ignore_state_witness :
    amend_mbx true c7Slave MbxSel.out 0x1800 256 ⟨1, 1⟩ =
      (⟨c7Slave.state, ⟨0x1800, 256⟩, c7Slave.SM1, 0x1800, 256, c7Slave.mbx_ro,
        c7Slave.mbx_rl⟩, none) :=
  (amend_mbx_set_watchdog_ignore_state c7Slave (by decide) 0x1800 256 100 c7WEnv rfl rfl
    (by decide) (by decide)).1

/-- C8: the EoE receive hook returns 1 on every execution path; it invokes
the registered frame callback exactly when ecx_EOEreadfragment returns a
positive completion code, passing the reassembled frame bytes of the decoded
size together with the originating slave number; an exception raised by the
callback is caught inside the hook (only recorded and printed - the outcome
carries no exception channel, so nothing propagates into the receive path). -/
theorem eoe_hook_callback_safety (slave : Nat) (env : EoeHookEnv) :
    (_eoe_hook slave env).retVal = 1 ∧
    (0 < env.wkc →
      (_eoe_hook slave env).callbackArg =
        some ((List.range env.size_of_rx).map env.rxbuf, slave) ∧
      (_eoe_hook slave env).caughtException = env.callbackRaises ∧
      ∀ frame sl, (_eoe_hook slave env).callbackArg = some (frame, sl) →
        frame.length = env.size_of_rx ∧ sl = slave) ∧
    (env.wkc ≤ 0 → (_eoe_hook slave env).callbackArg = none ∧
      (_eoe_hook slave env).caughtException = false) := by
  by_cases h : 0 < env.wkc
  · refine ⟨by simp [_eoe_hook, h], fun _ => ⟨by simp [_eoe_hook, h],
      by simp [_eoe_hook, h], ?_⟩, fun hle => absurd h (not_lt.mpr hle)⟩
    intro frame sl hfs
    simp [_eoe_hook, h] at hfs
    rcases hfs with ⟨h1, h2⟩
    constructor
    · rw [← h1]
      simp
    · exact h2.symm
  · exact ⟨by simp [_eoe_hook, h], fun hgt => absurd hgt h,
      fun _ => ⟨by simp [_eoe_hook, h], by simp [_eoe_hook, h]⟩⟩

/-- C8 witness: a completed frame of 60 bytes on slave 2. -/
theorem eoe_hook_callback_safety_witness :
    (_eoe_hook 2 c8Env).retVal = 1 :=
  (eoe_hook_callback_safety 2 c8Env).1

/-- C9: sdo_read with the size parameter omitted (0) uses the fixed
256-byte static buffer, allocates nothing, releases nothing unreleased, and
never returns more than 256 bytes (given that the low-level call respects
the capacity handed to it); with size positive and the allocation
succeeding, a dedicated buffer of exactly size bytes is allocated, at most
size bytes are returned, and the buffer is freed on every exit path,
including the error paths. -/
theorem sdo_read_buffer_discipline (pos n : Nat) (env : SdoReadEnv)
    (hslave : ∀ e ∈ env.errQueue, e.Slave = pos) :
    (sdo_read true false pos n 0 env).allocated = none ∧
    (sdo_read true false pos n 0 env).freed = true ∧
    (env.size_inout ≤ STATIC_SDO_READ_BUFFER_SIZE →
      ∀ bs, (sdo_read true false pos n 0 env).result = Except.ok bs →
        bs.length ≤ STATIC_SDO_READ_BUFFER_SIZE) ∧
    (∀ size, 0 < size → env.mallocOk = true →
      (sdo_read true false pos n size env).allocated = some size ∧
      (sdo_read true false pos n size env).freed = true ∧
      (env.size_inout ≤ size →
        ∀ bs, (sdo_read true false pos n size env).result = Except.ok bs →
          bs.length ≤ size)) := by
  have hnm0 : ¬ ((0 : Nat) ≠ 0 ∧ env.mallocOk = false) := by simp
  rcases sdo_read_alloc_freed pos n 0 env hnm0 (Or.inl rfl) with ⟨ha0, hf0⟩
  refine ⟨by simpa using ha0, hf0, ?_, ?_⟩
  · intro hcap bs hbs
    rw [sdo_read_ok_length pos n 0 env hnm0 bs hbs]
    exact hcap
  · intro size hsz hmalloc
    have hnm : ¬ (size ≠ 0 ∧ env.mallocOk = false) := by simp [hmalloc]
    have hno : ∀ err, (drainRead pos n env.errQueue).2 ≠ some (DrainStop.assertFail err) := by
      rw [drainRead_eq_drainWrite pos n env.errQueue hslave]
      exact fun err => drainWrite_no_assert n env.errQueue err
    rcases sdo_read_alloc_freed pos n size env hnm (Or.inr hno) with ⟨ha, hf⟩
    refine ⟨?_, hf, ?_⟩
    · rw [ha, if_neg (by omega)]
    · intro hcap bs hbs
      rw [sdo_read_ok_length pos n size env hnm bs hbs]
      exact hcap

/-- C9 witness: empty queue, 16 bytes reported by the low-level call. -/
theorem sdo_read_buffer_discipline_witness :
    (sdo_read true false 1 0 0 c9Env).allocated = none :=
  (sdo_read_buffer_discipline 1 0 c9Env (by decide)).1

/-- C10: on an initialized master, config_init replaces the slaves list on
every call, so the result never depends on the previously held handles;
handles (1-based positions, one per enumerated slave, each produced by an
in-range _get_slave call) are appended only for a strictly positive
enumeration result, and after a result of 0 or less the slaves list is
empty rather than holding stale handles. -/
theorem config_init_resets_slave_list (st stB : MasterState) (env : ConfigInitEnv)
    (h : st.context_initialized = true) (hB : stB.context_initialized = true) :
    ((config_init st env).1.slaves =
      (if 0 < env.retVal then (List.range env.slavecount).map (fun i => i + 1) else [])) ∧
    (env.retVal ≤ 0 → (config_init st env).1.slaves = []) ∧
    ((config_init st env).1.slaves = (config_init stB env).1.slaves) ∧
    (∀ i, i < env.slavecount → _get_slave env.slavecount i = Except.ok (i + 1)) ∧
    ((config_init st env).2 = Except.ok env.retVal) := by
  by_cases hr : 0 < env.retVal
  · refine ⟨by simp [config_init, h, hr], fun hle => absurd hr (by omega),
      by simp [config_init, h, hB, hr], fun i hi => _get_slave_in_range _ _ hi,
      by simp [config_init, h, hr]⟩
  · refine ⟨by simp [config_init, h, hr], fun _ => by simp [config_init, h, hr],
      by simp [config_init, h, hB, hr], fun i hi => _get_slave_in_range _ _ hi,
      by simp [config_init, h, hr]⟩

/-- C10 witness: two initialized states with different prior slave lists and
a two-slave enumeration result. -/
theorem config_init_resets_slave_list_witness :
    (config_init c10St c10Env).1.slaves = (config_init c10StB c10Env).1.slaves :=
  (config_init_resets_slave_list c10St c10StB c10Env rfl rfl).2.2.1

end Pysoem
